import Mathlib

/-!
Verification of `scripts/install_dev_python_modules.py`.

The script builds pip commands from three inputs: the interpreter version
(`sys.version_info`, compared lexicographically against `(3, 9)`), the
operating-system name (`os.name`), and an optional `quiet` string argument.
It then spawns two subprocesses (one plain invocation and one shell command),
echoing each command and streaming subprocess output line by line.

The embedding below models the command construction as pure list-of-string
functions, and the subprocess interaction as a trace: each iteration of the
read loop observes one `Step` (the `readline` result plus the `poll()`
result), and the whole of `main` is flattened into a list of events
(`mainEvents`).
-/

namespace InstallDev

/-- Source function `is_39`: `sys.version_info >= (3, 9)`, i.e. the
lexicographic comparison of `(major, minor)` against `(3, 9)`. -/
def is_39 (major minor : Nat) : Bool :=
  decide (3 < major) || (major == 3 && decide (9 ≤ minor))

/-- The unconditional middle block of `install_targets` (lines 54-92). -/
def fixedTargets : List String :=
  [ "awscli",
    "-e python_modules/dagster[test]",
    "-e python_modules/dagster-graphql",
    "-e python_modules/dagster-test",
    "-e python_modules/dagit",
    "-e python_modules/automation",
    "-e python_modules/libraries/dagster-pandas",
    "-e python_modules/libraries/dagster-aws[test]",
    "-e python_modules/libraries/dagster-celery",
    "-e python_modules/libraries/dagster-celery-docker",
    "-e python_modules/libraries/dagster-cron",
    "-e \"python_modules/libraries/dagster-dask[yarn,pbs,kube]\"",
    "-e python_modules/libraries/dagster-datadog",
    "-e python_modules/libraries/dagster-dbt",
    "-e python_modules/libraries/dagster-docker",
    "-e python_modules/libraries/dagster-gcp",
    "-e python_modules/libraries/dagster-k8s",
    "-e python_modules/libraries/dagster-celery-k8s",
    "-e python_modules/libraries/dagster-github",
    "-e python_modules/libraries/dagster-mysql",
    "-e python_modules/libraries/dagster-pagerduty",
    "-e python_modules/libraries/dagster-papertrail",
    "-e python_modules/libraries/dagster-postgres",
    "-e python_modules/libraries/dagster-prometheus",
    "-e python_modules/libraries/dagster-spark",
    "-e python_modules/libraries/dagster-pyspark",
    "-e python_modules/libraries/dagster-databricks",
    "-e python_modules/libraries/dagster-shell",
    "-e python_modules/libraries/dagster-slack",
    "-e python_modules/libraries/dagster-ssh",
    "-e python_modules/libraries/dagster-twilio",
    "-e python_modules/libraries/lakehouse",
    "-e python_modules/libraries/dagster-airflow",
    "-e integration_tests/python_modules/dagster-k8s-test-infra",
    "-r scala_modules/scripts/requirements.txt",
    "-e python_modules/libraries/dagster-azure",
    "-e helm/dagster/schema[test]" ]

/-- The list `install_targets` as built by `main` (lines 46-104): the 3.9 build
pins, then the fixed block, then the `dagster-ge` entry unless
`os.name == "nt"`, then the three pre-3.9 entries unless `is_39()`. -/
def install_targets (major minor : Nat) (osName : String) : List String :=
  (if is_39 major minor then ["Cython==0.29.21", "numpy==1.18.5"] else [])
    ++ fixedTargets
    ++ (if osName == "nt" then [] else ["-e python_modules/libraries/dagster-ge"])
    ++ (if is_39 major minor then []
        else
          [ "-e python_modules/libraries/dagster-snowflake",
            "-e python_modules/libraries/dagstermill",
            "-e \"examples/airline_demo[full]\"" ])

/-- The first pip command (lines 33-35): the pyspark install, with the
`quiet` argument appended when it is non-empty (Python string truthiness). -/
def firstPipCmd (quiet : String) : List String :=
  let cmd := ["pip", "--no-cache-dir", "install", "pyspark>=3.0.1"]
  if quiet.isEmpty then cmd else cmd ++ [quiet]

/-- The combined second command (lines 117-125): `pip install --no-deps`
with all targets, `quiet` if non-empty, then `&& pip install` with all
targets again, then `quiet` again if non-empty. -/
def combinedPipCmd (major minor : Nat) (osName quiet : String) : List String :=
  let cmd0 := ["pip", "install", "--no-deps"] ++ install_targets major minor osName
  let cmd1 := if quiet.isEmpty then cmd0 else cmd0 ++ [quiet]
  let cmd2 := cmd1 ++ ["&&", "pip", "install"] ++ install_targets major minor osName
  if quiet.isEmpty then cmd2 else cmd2 ++ [quiet]

/-- Derivation of `quiet` in the `__main__` block (line 140):
`sys.argv[1] if len(sys.argv) > 1 else ""`. -/
def quietOfArgv (argv : List String) : String :=
  if 1 < argv.length then argv.getD 1 "" else ""

/-- The Python `str.strip()` operation as applied in `output.decode("utf-8").strip()`:
drop leading and trailing whitespace characters. -/
def pyStrip (s : String) : String :=
  ⟨List.reverse (List.dropWhile Char.isWhitespace
      (List.reverse (List.dropWhile Char.isWhitespace s.data)))⟩

/-- What one iteration of the read loop observes of a subprocess: the
string returned by `p.stdout.readline()` (empty at EOF) and the result of
`p.poll()` (`some code` once the process has exited). -/
structure Step where
  output : String
  poll : Option Int
  deriving DecidableEq, Repr

/-- What a `subprocess.Popen` call received: either an argv list
(first invocation) or a single shell command string (`shell=True`). -/
inductive SpawnArg where
  | argvList : List String → SpawnArg
  | shellCmd : String → SpawnArg
  deriving DecidableEq, Repr

/-- Events of a run of `main`: process spawns (with the flag recording
`stderr=subprocess.STDOUT`), console prints, and the interactions of
the read loop with a subprocess. -/
inductive Ev where
  | spawn : Nat → SpawnArg → Bool → Ev
  | printLn : String → Ev
  | readLine : Nat → String → Ev
  | pollRunning : Nat → Ev
  | pollExit : Nat → Int → Ev
  deriving DecidableEq, Repr

/-- The read loop (lines 39-44 and 131-136) over a trace of observations:
read a line; if `poll()` is not `None`, break; otherwise print the line,
UTF-8 decoded and stripped, when it is non-empty. -/
def loopEvents (pid : Nat) : List Step → List Ev
  | [] => []
  | s :: rest =>
    Ev.readLine pid s.output ::
      match s.poll with
      | some code => [Ev.pollExit pid code]
      | none =>
        Ev.pollRunning pid ::
          ((if s.output.isEmpty then [] else [Ev.printLn (pyStrip s.output)])
            ++ loopEvents pid rest)

/-- The full event trace of `main quiet`: spawn the pyspark install
(argv list, stderr merged), echo the command, run the read loop; then
spawn the combined command (joined into one shell string, stderr merged),
echo it, and run the read loop again. -/
def mainEvents (major minor : Nat) (osName quiet : String)
    (t1 t2 : List Step) : List Ev :=
  Ev.spawn 1 (SpawnArg.argvList (firstPipCmd quiet)) true
    :: Ev.printLn (String.intercalate " " (firstPipCmd quiet))
    :: loopEvents 1 t1
    ++ Ev.spawn 2
        (SpawnArg.shellCmd
          (String.intercalate " " (combinedPipCmd major minor osName quiet))) true
    :: Ev.printLn (String.intercalate " " (combinedPipCmd major minor osName quiet))
    :: loopEvents 2 t2

/-- The lines printed to the console during a stretch of events. -/
def printedOf (es : List Ev) : List String :=
  es.filterMap fun e =>
    match e with
    | Ev.printLn s => some s
    | _ => none

/-- The commands handed to `subprocess.Popen` during a stretch of events. -/
def spawnedCmds (es : List Ev) : List SpawnArg :=
  es.filterMap fun e =>
    match e with
    | Ev.spawn _ arg _ => some arg
    | _ => none

/-- Holds (as `true`) unless the event is a spawn whose stderr is not merged into
stdout. -/
def stderrMergedOK : Ev → Bool
  | Ev.spawn _ _ merged => merged
  | _ => true

/-- Relabel the exit codes a trace reports, leaving the output stream
untouched. -/
def mapExit (f : Int → Int) (t : List Step) : List Step :=
  t.map fun s => ⟨s.output, s.poll.map f⟩

/-- Is this event the spawning of process `pid`? -/
def spawnOf (pid : Nat) : Ev → Bool
  | Ev.spawn p _ _ => p == pid
  | _ => false

theorem is_39_true_iff (major minor : Nat) :
    is_39 major minor = true ↔ (3 < major ∨ (major = 3 ∧ 9 ≤ minor)) := by
  simp [is_39]

theorem is_39_false_iff (major minor : Nat) :
    is_39 major minor = false ↔ (major < 3 ∨ (major = 3 ∧ minor < 9)) := by
  rw [← Bool.not_eq_true, is_39_true_iff]
  omega

theorem mem_cython (major minor : Nat) (osName : String) :
    "Cython==0.29.21" ∈ install_targets major minor osName ↔
      is_39 major minor = true := by
  cases h : is_39 major minor <;> cases hos : osName == "nt" <;>
    simp [install_targets, h, hos, fixedTargets]

theorem mem_numpy (major minor : Nat) (osName : String) :
    "numpy==1.18.5" ∈ install_targets major minor osName ↔
      is_39 major minor = true := by
  cases h : is_39 major minor <;> cases hos : osName == "nt" <;>
    simp [install_targets, h, hos, fixedTargets]

theorem mem_ge (major minor : Nat) (osName : String) :
    "-e python_modules/libraries/dagster-ge" ∈ install_targets major minor osName ↔
      (osName == "nt") = false := by
  cases h : is_39 major minor <;> cases hos : osName == "nt" <;>
    simp [install_targets, h, hos, fixedTargets]

theorem mem_snowflake (major minor : Nat) (osName : String) :
    "-e python_modules/libraries/dagster-snowflake" ∈ install_targets major minor osName ↔
      is_39 major minor = false := by
  cases h : is_39 major minor <;> cases hos : osName == "nt" <;>
    simp [install_targets, h, hos, fixedTargets]

theorem mem_dagstermill (major minor : Nat) (osName : String) :
    "-e python_modules/libraries/dagstermill" ∈ install_targets major minor osName ↔
      is_39 major minor = false := by
  cases h : is_39 major minor <;> cases hos : osName == "nt" <;>
    simp [install_targets, h, hos, fixedTargets]

theorem mem_airline (major minor : Nat) (osName : String) :
    "-e \"examples/airline_demo[full]\"" ∈ install_targets major minor osName ↔
      is_39 major minor = false := by
  cases h : is_39 major minor <;> cases hos : osName == "nt" <;>
    simp [install_targets, h, hos, fixedTargets]

/-- C1: for interpreter versions at least `(3, 9)` (lexicographically) the
install target list contains both build-toolchain pins `Cython==0.29.21`
and `numpy==1.18.5`, and for versions below `(3, 9)` it contains neither. -/
theorem targets_pins_iff_ge39 (major minor : Nat) (osName : String) :
    ("Cython==0.29.21" ∈ install_targets major minor osName ↔
        3 < major ∨ (major = 3 ∧ 9 ≤ minor)) ∧
    ("numpy==1.18.5" ∈ install_targets major minor osName ↔
        3 < major ∨ (major = 3 ∧ 9 ≤ minor)) :=
  ⟨(mem_cython major minor osName).trans (is_39_true_iff major minor),
   (mem_numpy major minor osName).trans (is_39_true_iff major minor)⟩

/-- C2: the `dagster-ge` entry is in the install target list exactly when
the operating-system name is not `"nt"`. -/
theorem targets_ge_iff_not_nt (major minor : Nat) (osName : String) :
    "-e python_modules/libraries/dagster-ge" ∈ install_targets major minor osName ↔
      (osName == "nt") = false :=
  mem_ge major minor osName

/-- C3: each of the three pre-3.9 entries (`dagster-snowflake`,
`dagstermill`, `airline_demo[full]`) is in the install target list exactly
when the interpreter version is below `(3, 9)` lexicographically. -/
theorem targets_pre39_iff_lt39 (major minor : Nat) (osName : String) :
    ("-e python_modules/libraries/dagster-snowflake" ∈ install_targets major minor osName ↔
        major < 3 ∨ (major = 3 ∧ minor < 9)) ∧
    ("-e python_modules/libraries/dagstermill" ∈ install_targets major minor osName ↔
        major < 3 ∨ (major = 3 ∧ minor < 9)) ∧
    ("-e \"examples/airline_demo[full]\"" ∈ install_targets major minor osName ↔
        major < 3 ∨ (major = 3 ∧ minor < 9)) :=
  ⟨(mem_snowflake major minor osName).trans (is_39_false_iff major minor),
   (mem_dagstermill major minor osName).trans (is_39_false_iff major minor),
   (mem_airline major minor osName).trans (is_39_false_iff major minor)⟩

/-- C9: the two version gates are driven by the same predicate `is_39`,
so the install target list never simultaneously contains a 3.9
build-toolchain pin and one of the three pre-3.9 entries. -/
theorem gates_mutually_exclusive (major minor : Nat) (osName : String) :
    (((install_targets major minor osName).contains "Cython==0.29.21"
        || (install_targets major minor osName).contains "numpy==1.18.5")
      && ((install_targets major minor osName).contains
            "-e python_modules/libraries/dagster-snowflake"
        || (install_targets major minor osName).contains
            "-e python_modules/libraries/dagstermill"
        || (install_targets major minor osName).contains
            "-e \"examples/airline_demo[full]\"")) = false := by
  cases h : is_39 major minor
  · simp only [List.contains, Bool.and_eq_false_iff, Bool.or_eq_false_iff]
    left
    constructor <;> rw [← Bool.not_eq_true, List.elem_iff] <;>
      simp [mem_cython, mem_numpy, h]
  · simp only [List.contains, Bool.and_eq_false_iff, Bool.or_eq_false_iff]
    right
    refine ⟨⟨?_, ?_⟩, ?_⟩ <;> rw [← Bool.not_eq_true, List.elem_iff] <;>
      simp [mem_snowflake, mem_dagstermill, mem_airline, h]

/-- C4: the first installer invocation is exactly
`pip --no-cache-dir install pyspark>=3.0.1`, optionally followed by the
quiet argument, and contains no install target from the main list. -/
theorem first_cmd_is_pyspark_only (quiet : String) :
    firstPipCmd quiet =
      ["pip", "--no-cache-dir", "install", "pyspark>=3.0.1"]
        ++ (if quiet.isEmpty then [] else [quiet]) := by
  unfold firstPipCmd
  cases hq : quiet.isEmpty <;> simp [hq]

/-- C5: the combined second command is two pip install invocations joined
by `&&`: first `pip install --no-deps` with the full target list (and the
quiet argument when non-empty), then `pip install` with the same target
list (and the same quiet argument), in that order. -/
theorem combined_cmd_shape (major minor : Nat) (osName quiet : String) :
    combinedPipCmd major minor osName quiet =
      (["pip", "install", "--no-deps"] ++ install_targets major minor osName
          ++ (if quiet.isEmpty then [] else [quiet]))
        ++ ["&&"]
        ++ (["pip", "install"] ++ install_targets major minor osName
          ++ (if quiet.isEmpty then [] else [quiet])) := by
  unfold combinedPipCmd
  cases hq : quiet.isEmpty <;> simp [hq]

/-- C6: `quiet` is `sys.argv[1]` when present and `""` otherwise, and a
non-empty quiet string is appended once to the first pip command and once
after each of the two pip invocations of the combined command, while an
empty quiet string is appended to none of them. -/
theorem quiet_argument_handling (argv : List String) (major minor : Nat)
    (osName : String) (q : String) (hq : ¬q = "") :
    quietOfArgv argv = argv.getD 1 "" ∧
    firstPipCmd q = ["pip", "--no-cache-dir", "install", "pyspark>=3.0.1", q] ∧
    combinedPipCmd major minor osName q =
      (["pip", "install", "--no-deps"] ++ install_targets major minor osName ++ [q])
        ++ (["&&", "pip", "install"] ++ install_targets major minor osName ++ [q]) ∧
    firstPipCmd "" = ["pip", "--no-cache-dir", "install", "pyspark>=3.0.1"] ∧
    combinedPipCmd major minor osName "" =
      (["pip", "install", "--no-deps"] ++ install_targets major minor osName)
        ++ (["&&", "pip", "install"] ++ install_targets major minor osName) := by
  have hqe : q.isEmpty = false := by
    rw [← Bool.not_eq_true, String.isEmpty_iff]
    exact hq
  refine ⟨?_, ?_, ?_, ?_, ?_⟩
  · rcases argv with _ | ⟨a, _ | ⟨b, l⟩⟩ <;> simp [quietOfArgv]
  · simp [firstPipCmd, hqe]
  · simp [combinedPipCmd, hqe]
  · rfl
  · simp [combinedPipCmd, String.isEmpty]

/-- Witness for `quiet_argument_handling` at
`argv = ["script", "-q"]`, version `(3, 9)`, OS `"posix"`, `q = "-q"`. -/
theorem quiet_argument_handling_witness :
    quietOfArgv ["script", "-q"] = (["script", "-q"]).getD 1 "" ∧
    firstPipCmd "-q" = ["pip", "--no-cache-dir", "install", "pyspark>=3.0.1", "-q"] ∧
    combinedPipCmd 3 9 "posix" "-q" =
      (["pip", "install", "--no-deps"] ++ install_targets 3 9 "posix" ++ ["-q"])
        ++ (["&&", "pip", "install"] ++ install_targets 3 9 "posix" ++ ["-q"]) ∧
    firstPipCmd "" = ["pip", "--no-cache-dir", "install", "pyspark>=3.0.1"] ∧
    combinedPipCmd 3 9 "posix" "" =
      (["pip", "install", "--no-deps"] ++ install_targets 3 9 "posix")
        ++ (["&&", "pip", "install"] ++ install_targets 3 9 "posix") :=
  quiet_argument_handling ["script", "-q"] 3 9 "posix" "-q" (by decide)

theorem loopEvents_shape (pid p : Nat) (t : List Step) :
    ∀ e ∈ loopEvents pid t, spawnOf p e = false ∧ stderrMergedOK e = true := by
  induction t with
  | nil => intro e he; simp [loopEvents] at he
  | cons s rest ih =>
    obtain ⟨out, poll⟩ := s
    intro e he
    cases poll with
    | some code =>
      simp only [loopEvents, List.mem_cons, List.mem_singleton] at he
      rcases he with rfl | rfl | he
      · exact ⟨rfl, rfl⟩
      · exact ⟨rfl, rfl⟩
      · simp at he
    | none =>
      cases hout : out.isEmpty <;>
        simp only [loopEvents, hout, List.mem_cons, List.nil_append,
          List.cons_append, List.mem_append, Bool.false_eq_true,
          if_false, if_true] at he
      · rcases he with rfl | rfl | rfl | he
        · exact ⟨rfl, rfl⟩
        · exact ⟨rfl, rfl⟩
        · exact ⟨rfl, rfl⟩
        · exact ih e he
      · rcases he with rfl | rfl | he
        · exact ⟨rfl, rfl⟩
        · exact ⟨rfl, rfl⟩
        · exact ih e he

theorem spawnedCmds_loopEvents (pid : Nat) (t : List Step) :
    spawnedCmds (loopEvents pid t) = [] := by
  induction t with
  | nil => rfl
  | cons s rest ih =>
    obtain ⟨out, poll⟩ := s
    cases poll with
    | some code => simp [loopEvents, spawnedCmds]
    | none =>
      cases hout : out.isEmpty <;>
        simpa [loopEvents, spawnedCmds, hout, List.filterMap_append] using ih

theorem printedOf_append (l m : List Ev) :
    printedOf (l ++ m) = printedOf l ++ printedOf m :=
  List.filterMap_append l m _

theorem printedOf_loopEvents_mapExit (pid : Nat) (f : Int → Int)
    (t : List Step) :
    printedOf (loopEvents pid (mapExit f t)) = printedOf (loopEvents pid t) := by
  induction t with
  | nil => rfl
  | cons s rest ih =>
    obtain ⟨out, poll⟩ := s
    cases poll with
    | some code => simp [loopEvents, mapExit, printedOf]
    | none =>
      cases hout : out.isEmpty <;>
        simpa [loopEvents, mapExit, printedOf, hout, List.filterMap_append]
          using ih

theorem printedOf_loopEvents_strip (pid : Nat) (t : List Step) :
    ∀ l ∈ printedOf (loopEvents pid t), ∃ s ∈ t, l = pyStrip s.output := by
  induction t with
  | nil => intro l hl; simp [loopEvents, printedOf] at hl
  | cons s rest ih =>
    obtain ⟨out, poll⟩ := s
    intro l hl
    cases poll with
    | some code => simp [loopEvents, printedOf] at hl
    | none =>
      cases hout : out.isEmpty <;>
        simp only [loopEvents, printedOf, hout, List.filterMap_cons,
          List.filterMap_append, Bool.false_eq_true, if_false, if_true,
          List.filterMap_nil, List.nil_append, List.cons_append,
          List.mem_cons, List.mem_append] at hl
      · rcases hl with rfl | hl
        · exact ⟨⟨out, none⟩, List.mem_cons_self _ _, rfl⟩
        · obtain ⟨s, hs, hls⟩ := ih l hl
          exact ⟨s, List.mem_cons_of_mem _ hs, hls⟩
      · obtain ⟨s, hs, hls⟩ := ih l hl
        exact ⟨s, List.mem_cons_of_mem _ hs, hls⟩

theorem loopEvents_terminating (pid : Nat) (t : List Step)
    (h : ∃ s ∈ t, (s.poll).isSome = true) :
    ∃ es code, loopEvents pid t = es ++ [Ev.pollExit pid code] := by
  induction t with
  | nil => simp at h
  | cons s rest ih =>
    obtain ⟨out, poll⟩ := s
    cases poll with
    | some code =>
      exact ⟨[Ev.readLine pid out], code, by simp [loopEvents]⟩
    | none =>
      have h2 : ∃ s ∈ rest, (s.poll).isSome = true := by
        rcases h with ⟨s, hs, hsome⟩
        rcases List.mem_cons.mp hs with rfl | hs2
        · simp at hsome
        · exact ⟨s, hs2, hsome⟩
      obtain ⟨es, code, heq⟩ := ih h2
      cases hout : out.isEmpty
      · exact ⟨Ev.readLine pid out :: Ev.pollRunning pid
            :: Ev.printLn (pyStrip out) :: es, code,
          by simp [loopEvents, hout, heq]⟩
      · exact ⟨Ev.readLine pid out :: Ev.pollRunning pid :: es, code,
          by simp [loopEvents, hout, heq]⟩

theorem printedOf_mainEvents (major minor : Nat) (osName quiet : String)
    (t1 t2 : List Step) :
    printedOf (mainEvents major minor osName quiet t1 t2) =
      String.intercalate " " (firstPipCmd quiet)
        :: printedOf (loopEvents 1 t1)
        ++ String.intercalate " " (combinedPipCmd major minor osName quiet)
        :: printedOf (loopEvents 2 t2) := by
  simp [mainEvents, printedOf, List.filterMap_cons, List.filterMap_append]

/-- C7 counterexample: loop output lines are not printed verbatim.  On the
trace where the process emits the line `"   indented\n"` and then exits,
the only printed line is the stripped `"indented"`; neither the raw line
nor the line minus its newline is printed. -/
theorem printed_not_verbatim_cex :
    printedOf (loopEvents 1 [⟨"   indented\n", none⟩, ⟨"", some 0⟩])
        = ["indented"] ∧
    "   indented\n" ∉ printedOf (loopEvents 1 [⟨"   indented\n", none⟩, ⟨"", some 0⟩]) ∧
    "   indented" ∉ printedOf (loopEvents 1 [⟨"   indented\n", none⟩, ⟨"", some 0⟩]) := by
  refine ⟨by decide, by decide, by decide⟩

/-- C7 (amended): `main` never inspects exit-code values — the printed
output is invariant under any relabeling of the exit codes the two
subprocesses report — every spawn merges stderr into stdout
(`stderr=subprocess.STDOUT`), and every line the read loop prints is the
UTF-8-decoded, whitespace-stripped form of a line the subprocess produced
(not the verbatim line). The model is a total function, reflecting that
`main` returns normally on every outcome. -/
theorem no_error_handling (major minor : Nat) (osName quiet : String)
    (t1 t2 : List Step) (f g : Int → Int) :
    printedOf (mainEvents major minor osName quiet (mapExit f t1) (mapExit g t2)) =
      printedOf (mainEvents major minor osName quiet t1 t2) ∧
    (∀ e ∈ mainEvents major minor osName quiet t1 t2, stderrMergedOK e = true) ∧
    (∀ l ∈ printedOf (loopEvents 1 t1), ∃ s ∈ t1, l = pyStrip s.output) := by
  refine ⟨?_, ?_, printedOf_loopEvents_strip 1 t1⟩
  · rw [printedOf_mainEvents, printedOf_mainEvents,
      printedOf_loopEvents_mapExit, printedOf_loopEvents_mapExit]
  · intro e he
    simp only [mainEvents, List.mem_cons, List.mem_append] at he
    rcases he with (rfl | rfl | he) | (rfl | rfl | he)
    · rfl
    · rfl
    · exact (loopEvents_shape 1 2 t1 e he).2
    · rfl
    · rfl
    · exact (loopEvents_shape 2 2 t2 e he).2

/-- C8: the second subprocess is spawned only after the read loop over the
output of the first subprocess has terminated because `poll()` reported an exit
code: the event trace splits as a prefix containing no spawn of process 2,
then the completion observation of process 1, then immediately the spawn
of process 2. -/
theorem second_spawn_after_first_completes (major minor : Nat)
    (osName quiet : String) (t1 t2 : List Step)
    (h : ∃ s ∈ t1, (s.poll).isSome = true) :
    ∃ pre code rest,
      mainEvents major minor osName quiet t1 t2 =
        pre ++ Ev.pollExit 1 code
          :: Ev.spawn 2 (SpawnArg.shellCmd (String.intercalate " "
                (combinedPipCmd major minor osName quiet))) true
          :: rest ∧
      ∀ e ∈ pre, spawnOf 2 e = false := by
  obtain ⟨es, code, heq⟩ := loopEvents_terminating 1 t1 h
  refine ⟨Ev.spawn 1 (SpawnArg.argvList (firstPipCmd quiet))
        true
      :: Ev.printLn (String.intercalate " " (firstPipCmd quiet)) :: es, code,
    Ev.printLn (String.intercalate " " (combinedPipCmd major minor osName quiet))
      :: loopEvents 2 t2, ?_, ?_⟩
  · simp [mainEvents, heq]
  · intro e he
    rcases List.mem_cons.mp he with rfl | he
    · rfl
    rcases List.mem_cons.mp he with rfl | he
    · rfl
    · refine (loopEvents_shape 1 2 t1 e ?_).1
      rw [heq]
      exact List.mem_append_left _ he

/-- Witness for `second_spawn_after_first_completes`: the concrete trace
where the first process prints one line and then exits with code 0. -/
theorem second_spawn_after_first_completes_witness :
    (∃ s ∈ ([⟨"ok\n", none⟩, ⟨"", some 0⟩] : List Step),
        (s.poll).isSome = true) ∧
    (∃ pre code rest,
      mainEvents 3 9 "posix" "" [⟨"ok\n", none⟩, ⟨"", some 0⟩] [] =
        pre ++ Ev.pollExit 1 code
          :: Ev.spawn 2 (SpawnArg.shellCmd (String.intercalate " "
                (combinedPipCmd 3 9 "posix" ""))) true
          :: rest ∧
      ∀ e ∈ pre, spawnOf 2 e = false) :=
  ⟨⟨⟨"", some 0⟩, by simp, rfl⟩,
   second_spawn_after_first_completes 3 9 "posix" ""
     [⟨"ok\n", none⟩, ⟨"", some 0⟩] [] ⟨⟨"", some 0⟩, by simp, rfl⟩⟩

/-- C10: command construction is deterministic — for a fixed interpreter
version, OS name and quiet argument, the commands handed to the two
`Popen` calls are the same regardless of what the subprocesses do, and
they are exactly the pyspark argv list and the joined combined shell
string. -/
theorem commands_deterministic (major minor : Nat) (osName quiet : String)
    (t1 t2 u1 u2 : List Step) :
    spawnedCmds (mainEvents major minor osName quiet t1 t2) =
      spawnedCmds (mainEvents major minor osName quiet u1 u2) ∧
    spawnedCmds (mainEvents major minor osName quiet t1 t2) =
      [SpawnArg.argvList (firstPipCmd quiet),
       SpawnArg.shellCmd
         (String.intercalate " " (combinedPipCmd major minor osName quiet))] := by
  have key : ∀ v1 v2 : List Step,
      spawnedCmds (mainEvents major minor osName quiet v1 v2) =
        [SpawnArg.argvList (firstPipCmd quiet),
         SpawnArg.shellCmd
           (String.intercalate " " (combinedPipCmd major minor osName quiet))] := by
    intro v1 v2
    have h1 := spawnedCmds_loopEvents 1 v1
    have h2 := spawnedCmds_loopEvents 2 v2
    simp only [spawnedCmds] at h1 h2 ⊢
    simp [mainEvents, List.filterMap_cons, List.filterMap_append, h1, h2]
  exact ⟨(key t1 t2).trans (key u1 u2).symm, key t1 t2⟩

end InstallDev
